import Mathlib

/-!
Shallow embedding of `src/skills/nano-banana-pro/scripts/generate_image.py`.

The script parses CLI flags, calls a remote image-generation endpoint
through the vendor SDK, and writes the resulting image (optionally
re-compressed) to disk; on an exception it writes a placeholder image.

External collaborators (the vendor SDK remote call, the PIL PNG encoder,
the filesystem existence check, the environment) are modelled as explicit
oracle parameters.  PIL images are modelled algebraically by the three ways
the script constructs them: `PILImage.open` on an in-memory byte buffer,
`PILImage.open(path)`, and `PILImage.new` plus `ImageDraw.text` calls.
Observable behaviour (stdout, stderr, remote calls, file writes) is
recorded as a trace of events; `sys.exit(n)` raises `SystemExit`, which in
Python is a `BaseException` and is NOT caught by `except Exception` - the
embedding keeps `SystemExit` (`GenResult.exit`) distinct from ordinary
exceptions (`GenResult.exc`) for exactly that reason.
-/

/-- A byte stream (the contents of an in-memory byte buffer), as a list of bytes. -/
def ByteStream : Type := List Nat

deriving instance DecidableEq for ByteStream

/-- An RGB colour triple as used by PIL. -/
def Color : Type := Nat × Nat × Nat

deriving instance DecidableEq for Color

/-- PIL images, modelled algebraically by the constructions the script uses:
`decoded b` is `PILImage.open` applied to a buffer holding bytes `b`, `loaded p` is
`PILImage.open(p)` for an input-image path, and `canvas w h c texts` is
`PILImage.new("RGB", (w, h), color=c)` after the recorded `ImageDraw.text`
calls (position, text, fill). -/
inductive Image where
  | decoded (bytes : ByteStream)
  | loaded (path : String)
  | canvas (width height : Nat) (color : Color)
      (texts : List ((Nat × Nat) × String × Color))
deriving DecidableEq

/-- Python `int()` applied to a (rational-valued) float: truncation toward
zero, as in `int(max_size_mb * 1024 * 1024)`. -/
def pyInt (x : ℚ) : ℤ := if 0 ≤ x then ⌊x⌋ else ⌈x⌉

/-- The `while quality >= 10` loop of `compress_image`.  Each iteration
encodes the image with `image.save(buffer, format="PNG", optimize=True)` -
the `quality` counter is never passed to the encoder, so every attempt
encodes the same bytes `enc image`.  Returns the buffer accepted by the
size test (or `none` when the loop falls through) together with the number
of encode attempts the loop performed. -/
def compressLoop (enc : Image → ByteStream) (image : Image) (maxBytes : ℤ)
    (quality : ℤ) : Option ByteStream × Nat :=
  if h : 10 ≤ quality then
    if ((enc image).length : ℤ) ≤ maxBytes then (some (enc image), 1)
    else
      match compressLoop enc image maxBytes (quality - 5) with
      | (r, n) => (r, n + 1)
  else (none, 0)
termination_by quality.toNat
decreasing_by simp_wf; omega

/-- Number of iterations the `while quality >= 10` loop runs when no encode
ever satisfies the size test, starting from a given quality. -/
def loopCount (quality : ℤ) : Nat :=
  if h : 10 ≤ quality then loopCount (quality - 5) + 1 else 0
termination_by quality.toNat
decreasing_by simp_wf; omega

/-- `compress_image(image, max_size_mb)`: bounded quality-degradation
search starting at quality 95; if the loop falls through, one final
unconditional encode is performed and returned.  The returned value is
`PILImage.open(buffer)`, i.e. `Image.decoded buffer`. -/
def compress_image (enc : Image → ByteStream) (image : Image)
    (max_size_mb : ℚ) : Image :=
  match (compressLoop enc image (pyInt (max_size_mb * 1024 * 1024)) 95).1 with
  | some buffer => Image.decoded buffer
  | none => Image.decoded (enc image)

/-- Total number of encode attempts a run of `compress_image` performs:
the loop attempts, plus the final unconditional encode when the loop
falls through. -/
def compressEncodeCount (enc : Image → ByteStream) (image : Image)
    (max_size_mb : ℚ) : Nat :=
  match compressLoop enc image (pyInt (max_size_mb * 1024 * 1024)) 95 with
  | (some _, n) => n
  | (none, n) => n + 1

lemma compressLoop_succeeds (enc : Image → ByteStream) (image : Image)
    (maxBytes : ℤ) (quality : ℤ)
    (h : ((enc image).length : ℤ) ≤ maxBytes) :
    compressLoop enc image maxBytes quality =
      if 10 ≤ quality then (some (enc image), 1) else (none, 0) := by
  rw [compressLoop]
  by_cases h10 : 10 ≤ quality <;> simp [h10, h]

lemma compressLoop_fails_aux (enc : Image → ByteStream) (image : Image)
    (maxBytes : ℤ)
    (h : ¬ ((enc image).length : ℤ) ≤ maxBytes) :
    ∀ (n : Nat) (quality : ℤ), quality.toNat ≤ n →
      compressLoop enc image maxBytes quality = (none, loopCount quality) := by
  intro n
  induction n with
  | zero =>
      intro quality hq
      rw [compressLoop, loopCount]
      have h10 : ¬ 10 ≤ quality := by omega
      simp [h10]
  | succ n ih =>
      intro quality hq
      rw [compressLoop, loopCount]
      by_cases h10 : 10 ≤ quality
      · have hrec := ih (quality - 5) (by omega)
        simp [h10, h, hrec]
      · simp [h10]

lemma compressLoop_fails (enc : Image → ByteStream) (image : Image)
    (maxBytes : ℤ) (quality : ℤ)
    (h : ¬ ((enc image).length : ℤ) ≤ maxBytes) :
    compressLoop enc image maxBytes quality = (none, loopCount quality) :=
  compressLoop_fails_aux enc image maxBytes h quality.toNat quality le_rfl

lemma loopCount_closed :
    ∀ (n : Nat) (quality : ℤ), quality.toNat ≤ n →
      loopCount quality =
        if 10 ≤ quality then ((quality - 10) / 5).toNat + 1 else 0 := by
  intro n
  induction n with
  | zero =>
      intro quality hq
      rw [loopCount]
      have h10 : ¬ 10 ≤ quality := by omega
      simp [h10]
  | succ n ih =>
      intro quality hq
      rw [loopCount]
      by_cases h10 : 10 ≤ quality
      · have hrec := ih (quality - 5) (by omega)
        rw [hrec] at *
        simp only [h10, dif_pos, if_pos]
        by_cases h15 : 10 ≤ quality - 5
        · simp only [h15, if_pos]
          omega
        · simp only [h15, if_neg, not_false_iff]
          omega
      · simp [h10]

lemma loopCount_95 : loopCount 95 = 18 := by
  have h := loopCount_closed (95 : ℤ).toNat 95 le_rfl
  norm_num at h
  exact h

/-- The resolution CLI flag: `choices=["1K", "2K", "4K"]`. -/
inductive Resolution where
  | r1K
  | r2K
  | r4K
deriving DecidableEq

/-- String form of a resolution tag, as interpolated into stdout lines. -/
def Resolution.tag : Resolution → String
  | .r1K => "1K"
  | .r2K => "2K"
  | .r4K => "4K"

/-- `types.GenerateImagesConfig(number_of_images=1)`. -/
structure GenerateImagesConfig where
  number_of_images : Nat
deriving DecidableEq

/-- One call to `client.models.generate_images(...)`: everything the script
passes to the vendor SDK.  `reference_images` is `none` when the keyword
argument is not passed at all (the no-input-images branch). -/
structure Request where
  model : String
  prompt : String
  reference_images : Option (List Image)
  config : GenerateImagesConfig
deriving DecidableEq

/-- Outcome of the remote call, as observed by the script: either a
response carrying `response.generated_images` (each entry modelled as the
raw byte payload that the `hasattr` chain extracts), or an ordinary Python
exception raised by the SDK (network failure, quota, invalid response). -/
inductive RemoteResult where
  | success (generated_images : List ByteStream)
  | error (msg : String)
deriving DecidableEq

/-- Observable events of one run: remote calls, stdout lines, stderr
lines, and file writes (path plus the image serialized there as PNG). -/
inductive Event where
  | remoteCall (req : Request)
  | stdoutLine (s : String)
  | stderrLine (s : String)
  | fileWrite (path : String) (img : Image)
deriving DecidableEq

/-- Whether an event is a file write. -/
def Event.isFileWrite : Event → Bool
  | .fileWrite _ _ => true
  | _ => false

/-- Whether an event is a remote generation call. -/
def Event.isRemoteCall : Event → Bool
  | .remoteCall _ => true
  | _ => false

/-- How a call of `generate_image` (or any modelled Python call) ends:
a returned value, an ordinary exception (catchable by `except Exception`),
or `SystemExit` raised by `sys.exit` - which `except Exception` does NOT
catch, because `SystemExit` derives from `BaseException` only. -/
inductive GenResult where
  | ok (img : Image)
  | exc (msg : String)
  | exit (code : Nat)
deriving DecidableEq

/-- Python truthiness of an optional list (`if input_images:`): `None` and
the empty list are falsy. -/
def listTruthy {α : Type} : Option (List α) → Bool
  | none => false
  | some l => !l.isEmpty

/-- Handling of the value returned by `client.models.generate_images`:
`if not response.generated_images:` prints an error and calls
`sys.exit(1)`; otherwise the first entry is decoded with
`PILImage.open` applied to a buffer holding the raw image bytes. -/
def handleResponse (req : Request) (res : RemoteResult) :
    List Event × GenResult :=
  match res with
  | .error msg => ([Event.remoteCall req], GenResult.exc msg)
  | .success generated_images =>
      if generated_images.isEmpty then
        ([Event.remoteCall req,
          Event.stderrLine "Error: No image generated."],
         GenResult.exit 1)
      else
        ([Event.remoteCall req],
         GenResult.ok (Image.decoded (generated_images.headD [])))

/-- `generate_image(prompt, api_key, resolution, model, input_images)`.
The `api_key` is consumed only by the local `genai.Client` construction.
The config is `GenerateImagesConfig(number_of_images=1)`; the
`if resolution == "1K": pass elif ...` chain does nothing in every branch.
With a truthy `input_images` list, more than 14 entries aborts via
`sys.exit(1)` before any remote call; otherwise the list is forwarded as
`reference_images`. -/
def generate_image (remote : Request → RemoteResult) (prompt : String)
    (api_key : String) (resolution : Resolution) (model : String)
    (input_images : Option (List Image)) : List Event × GenResult :=
  let config : GenerateImagesConfig := ⟨1⟩
  let config := match resolution with
    | .r1K => config
    | .r2K => config
    | .r4K => config
  if listTruthy input_images then
    let imgs := input_images.getD []
    if imgs.length > 14 then
      ([Event.stderrLine "Error: Maximum 14 input images allowed."],
       GenResult.exit 1)
    else
      let req : Request := ⟨model, prompt, some imgs, config⟩
      handleResponse req (remote req)
  else
    let req : Request := ⟨model, prompt, none, config⟩
    handleResponse req (remote req)

/-- `create_error_image(error_msg)`: a fresh 512 by 512 RGB canvas with
dark background `(30, 30, 30)`, with `"GENERATION FAILED"` drawn at
`(20, 200)` in `(255, 50, 50)` and `str(error_msg)[:200]` drawn at
`(20, 230)` in `(200, 200, 200)`. -/
def create_error_image (error_msg : String) : Image :=
  Image.canvas 512 512 (30, 30, 30)
    [((20, 200), "GENERATION FAILED", (255, 50, 50)),
     ((20, 230), error_msg.take 200, (200, 200, 200))]

/-- Python truthiness of an optional string (`args.api_key or ...`):
`None` and the empty string are falsy. -/
def strTruthy : Option String → Bool
  | none => false
  | some s => !s.isEmpty

/-- `get_api_key(args)`: `args.api_key or os.environ.get("GEMINI_API_KEY")`;
a falsy result prints two stderr lines and calls `sys.exit(1)`. -/
def get_api_key (api_key : Option String) (env : Option String) :
    List Event × Except Nat String :=
  let key := if strTruthy api_key then api_key else env
  if strTruthy key then
    ([], Except.ok (key.getD ""))
  else
    ([Event.stderrLine "Error: No API key provided.",
      Event.stderrLine "Set GEMINI_API_KEY environment variable or use --api-key"],
     Except.error 1)

/-- `load_input_images(image_paths)`: each path is checked with
`os.path.exists`; the first missing one prints an error and calls
`sys.exit(1)`; otherwise each image is opened with `PILImage.open(path)`
and collected in order. -/
def load_input_images (pathExists : String → Bool) :
    List String → List Event × Except Nat (List Image)
  | [] => ([], Except.ok [])
  | path :: rest =>
      if pathExists path then
        match load_input_images pathExists rest with
        | (evs, Except.ok imgs) => (evs, Except.ok (Image.loaded path :: imgs))
        | (evs, Except.error c) => (evs, Except.error c)
      else
        ([Event.stderrLine ("Error: Input image not found: " ++ path)],
         Except.error 1)

/-- The parsed CLI arguments (`parse_args()`).  `api_key` is `none` when
the flag was not passed; `input_images` is `none` when `--input-image` was
never passed (argparse `append` semantics). -/
structure Args where
  prompt : String
  filename : String
  resolution : Resolution
  model : String
  api_key : Option String
  input_images : Option (List String)
  compress : Bool
  max_size : ℚ
deriving DecidableEq

/-- The observable outcome of one process run: its event trace and the
process exit code (0 when `main` returns normally, the `sys.exit` code
when a `SystemExit` terminates it). -/
structure MainOutcome where
  events : List Event
  exitCode : Nat
deriving DecidableEq

/-- The input-image step of `main`: `input_images = None`, then
`if args.input_images: input_images = load_input_images(args.input_images)`
(argparse `append` yields `None` or a nonempty list; an untruthy value
leaves `input_images` as `None`). -/
def resolveInputImages (pathExists : String → Bool)
    (o : Option (List String)) :
    List Event × Except Nat (Option (List Image)) :=
  if listTruthy o then
    match load_input_images pathExists (o.getD []) with
    | (evs, Except.ok imgs) => (evs, Except.ok (some imgs))
    | (evs, Except.error c) => (evs, Except.error c)
  else ([], Except.ok none)

namespace Script

/-- `main()`: resolve the API key, load input images, print status lines,
run `generate_image` inside `try`.  An ordinary exception is caught by
`except Exception` and converted into the placeholder written at the
requested path (after which `main` returns normally, exit code 0); a
`SystemExit` raised inside the `try` block propagates uncaught and ends
the process with its code and no file written.  On success the image
(optionally compressed) is saved at the requested path. -/
def main (remote : Request → RemoteResult) (enc : Image → ByteStream)
    (pathExists : String → Bool) (env : Option String) (args : Args) :
    MainOutcome :=
  match get_api_key args.api_key env with
  | (evs0, Except.error c) => ⟨evs0, c⟩
  | (evs0, Except.ok api_key) =>
    match resolveInputImages pathExists args.input_images with
    | (evs1, Except.error c) => ⟨evs0 ++ evs1, c⟩
    | (evs1, Except.ok input_images) =>
      let evs2 :=
        [Event.stdoutLine
          ("Generating image with resolution " ++ args.resolution.tag ++ "...")]
      let evs3 :=
        if listTruthy input_images then
          [Event.stdoutLine
            ("Using " ++ toString (input_images.getD []).length ++
             " input image(s) for composition/editing")]
        else []
      match generate_image remote args.prompt api_key args.resolution
          args.model input_images with
      | (evs4, GenResult.exit c) => ⟨evs0 ++ evs1 ++ evs2 ++ evs3 ++ evs4, c⟩
      | (evs4, GenResult.exc e) =>
          let error_msg := "Error: " ++ e
          ⟨evs0 ++ evs1 ++ evs2 ++ evs3 ++ evs4 ++
            [Event.stderrLine error_msg,
             Event.stderrLine "Generating error placeholder image...",
             Event.fileWrite args.filename (create_error_image error_msg),
             Event.stdoutLine ("Error placeholder saved to: " ++ args.filename)],
           0⟩
      | (evs4, GenResult.ok image) =>
          let image :=
            if args.compress then compress_image enc image args.max_size
            else image
          ⟨evs0 ++ evs1 ++ evs2 ++ evs3 ++ evs4 ++
            [Event.fileWrite args.filename image,
             Event.stdoutLine ("Image saved to: " ++ args.filename)],
           0⟩

end Script

lemma compress_image_eq (enc : Image → ByteStream) (image : Image)
    (max_size_mb : ℚ) :
    compress_image enc image max_size_mb = Image.decoded (enc image) := by
  unfold compress_image
  by_cases h : ((enc image).length : ℤ) ≤ pyInt (max_size_mb * 1024 * 1024)
  · rw [compressLoop_succeeds enc image _ 95 h]
    norm_num
  · rw [compressLoop_fails enc image _ 95 h]

/-- C2: for every input image and every maximum-size value, `compress_image`
returns an image decoded from exactly the bytes of a single PNG encode of
the input (`optimize=True`): the quality counter is decremented but never
passed to the encoder, so every encode attempt of the loop and the final
unconditional encode produce the same bytes `enc image`, and the whole
bounded search is equivalent to one encode. -/
theorem compress_image_is_single_encode (enc : Image → ByteStream)
    (image : Image) (max_size_mb : ℚ) :
    compress_image enc image max_size_mb = Image.decoded (enc image) :=
  compress_image_eq enc image max_size_mb

/-- C3: the compression search of `compress_image` (the
`while quality >= 10` loop started at quality 95, stepping down by 5)
performs at most 18 encode attempts, and it always terminates with a
result (`compressLoop` and `compress_image` are total functions). -/
theorem compress_search_at_most_18_attempts (enc : Image → ByteStream)
    (image : Image) (max_size_mb : ℚ) :
    (compressLoop enc image (pyInt (max_size_mb * 1024 * 1024)) 95).2 ≤ 18 ∧
    ∃ result : Image, compress_image enc image max_size_mb = result := by
  constructor
  · by_cases h : ((enc image).length : ℤ) ≤ pyInt (max_size_mb * 1024 * 1024)
    · rw [compressLoop_succeeds enc image _ 95 h]
      norm_num
    · rw [compressLoop_fails enc image _ 95 h, loopCount_95]
  · exact ⟨Image.decoded (enc image), compress_image_eq enc image max_size_mb⟩

/-- C4: for every image and target maximum size `max_size_mb`,
`compress_image` returns a byte stream of size at most
`int(max_size_mb * 1024 * 1024)` whenever some quality step achieves that
bound (the encoder ignores quality, so achievability at any step is
achievability of the single encode); otherwise it returns the last
attempted encoding unconditionally; and it never fails - it always
returns some encoding. -/
theorem compress_image_size_contract (enc : Image → ByteStream)
    (image : Image) (max_size_mb : ℚ) :
    (((enc image).length : ℤ) ≤ pyInt (max_size_mb * 1024 * 1024) →
      ∃ b : ByteStream, compress_image enc image max_size_mb = Image.decoded b ∧
        (b.length : ℤ) ≤ pyInt (max_size_mb * 1024 * 1024)) ∧
    compress_image enc image max_size_mb = Image.decoded (enc image) := by
  refine ⟨fun h => ⟨enc image, compress_image_eq enc image max_size_mb, h⟩,
    compress_image_eq enc image max_size_mb⟩

/-- Witness for C4 at a concrete encoder, image and size. -/
theorem compress_image_size_contract_witness :
    ∃ b : ByteStream,
      compress_image (fun _ => []) (Image.decoded []) 10 = Image.decoded b ∧
      (b.length : ℤ) ≤ pyInt ((10 : ℚ) * 1024 * 1024) := by
  refine (compress_image_size_contract (fun _ => []) (Image.decoded []) 10).1 ?_
  have h0 : (0 : ℤ) ≤ pyInt ((10 : ℚ) * 1024 * 1024) := by
    rw [pyInt, if_pos (by norm_num : (0 : ℚ) ≤ 10 * 1024 * 1024)]
    exact Int.le_floor.mpr (by norm_num)
  simpa using h0

/-- C8: on an image whose (quality-95) encoding already satisfies the size
bound, `compress_image` succeeds on the first attempt: exactly one encode
is performed in total, the loop returns that first encoding with attempt
count 1, and the result decodes exactly those bytes. -/
theorem compress_compliant_first_attempt (enc : Image → ByteStream)
    (image : Image) (max_size_mb : ℚ)
    (h : ((enc image).length : ℤ) ≤ pyInt (max_size_mb * 1024 * 1024)) :
    compressEncodeCount enc image max_size_mb = 1 ∧
    compressLoop enc image (pyInt (max_size_mb * 1024 * 1024)) 95 =
      (some (enc image), 1) ∧
    compress_image enc image max_size_mb = Image.decoded (enc image) := by
  have hloop : compressLoop enc image (pyInt (max_size_mb * 1024 * 1024)) 95 =
      (some (enc image), 1) := by
    rw [compressLoop_succeeds enc image _ 95 h]
    norm_num
  refine ⟨?_, hloop, compress_image_eq enc image max_size_mb⟩
  unfold compressEncodeCount
  rw [hloop]

/-- Witness for C8 at a concrete encoder, image and size. -/
theorem compress_compliant_first_attempt_witness :
    compressEncodeCount (fun _ => []) (Image.decoded []) 10 = 1 := by
  refine (compress_compliant_first_attempt (fun _ => []) (Image.decoded []) 10 ?_).1
  have h0 : (0 : ℤ) ≤ pyInt ((10 : ℚ) * 1024 * 1024) := by
    rw [pyInt, if_pos (by norm_num : (0 : ℚ) ≤ 10 * 1024 * 1024)]
    exact Int.le_floor.mpr (by norm_num)
  simpa using h0

/-- C9: two runs of `generate_image` that differ only in the resolution
argument are identical: the same remote request is issued (the whole event
trace is equal) and the outcome is equal, because the
`if resolution == ...` chain never forwards the resolution into the
request configuration. -/
theorem generate_image_resolution_independent
    (remote : Request → RemoteResult) (prompt : String) (api_key : String)
    (model : String) (input_images : Option (List Image))
    (res1 res2 : Resolution) :
    generate_image remote prompt api_key res1 model input_images =
      generate_image remote prompt api_key res2 model input_images := by
  cases res1 <;> cases res2 <;> rfl

lemma handleResponse_events (req : Request) (res : RemoteResult) :
    (handleResponse req res).1 = [Event.remoteCall req] ∨
    (handleResponse req res).1 =
      [Event.remoteCall req, Event.stderrLine "Error: No image generated."] := by
  cases res with
  | error m => left; rfl
  | success l =>
      by_cases hl : l.isEmpty
      · right; simp [handleResponse, hl]
      · left; simp [handleResponse, hl]

lemma tooMany_notin_handleResponse (req : Request) (res : RemoteResult) :
    Event.stderrLine "Error: Maximum 14 input images allowed." ∉
      (handleResponse req res).1 := by
  rcases handleResponse_events req res with h | h <;> rw [h] <;> simp

/-- C5: with more than 14 reference images, `generate_image` aborts with
the length-bound error and its trace contains no remote call at all (so
the rejection happens before any remote generation call); with at most 14
reference images (or none), the length-bound error never appears in the
trace. -/
theorem request_builder_length_bound (remote : Request → RemoteResult)
    (prompt : String) (api_key : String) (resolution : Resolution)
    (model : String) :
    (∀ imgs : List Image, 14 < imgs.length →
      generate_image remote prompt api_key resolution model (some imgs) =
        ([Event.stderrLine "Error: Maximum 14 input images allowed."],
         GenResult.exit 1) ∧
      ∀ ev ∈ (generate_image remote prompt api_key resolution model
          (some imgs)).1, ev.isRemoteCall = false) ∧
    (∀ input_images : Option (List Image),
      (input_images.getD []).length ≤ 14 →
      Event.stderrLine "Error: Maximum 14 input images allowed." ∉
        (generate_image remote prompt api_key resolution model
          input_images).1) := by
  constructor
  · intro imgs hlen
    have hne : imgs.isEmpty = false := by
      cases imgs with
      | nil => simp at hlen
      | cons a l => rfl
    have heq : generate_image remote prompt api_key resolution model
        (some imgs) =
        ([Event.stderrLine "Error: Maximum 14 input images allowed."],
         GenResult.exit 1) := by
      cases resolution <;>
        simp [generate_image, listTruthy, hne, Nat.lt_iff_add_one_le.mp hlen] <;>
        omega
    refine ⟨heq, ?_⟩
    rw [heq]
    intro ev hev
    simp at hev
    rw [hev]
    rfl
  · intro input_images hlen
    cases input_images with
    | none =>
        cases resolution <;>
          simpa [generate_image, listTruthy] using
            tooMany_notin_handleResponse _ _
    | some imgs =>
        by_cases hne : imgs.isEmpty
        · cases resolution <;>
            simpa [generate_image, listTruthy, hne] using
              tooMany_notin_handleResponse _ _
        · have hle : ¬ imgs.length > 14 := by
            simp only [Option.getD_some] at hlen
            omega
          cases resolution <;>
            simpa [generate_image, listTruthy, hne, hle] using
              tooMany_notin_handleResponse _ _

/-- Witness for C5: 15 reference images are rejected with the length-bound
error and no remote call; with none the error does not appear. -/
theorem request_builder_length_bound_witness :
    generate_image (fun _ => RemoteResult.success [[0]]) "p" "k"
        Resolution.r1K "m" (some (List.replicate 15 (Image.decoded []))) =
      ([Event.stderrLine "Error: Maximum 14 input images allowed."],
       GenResult.exit 1) ∧
    Event.stderrLine "Error: Maximum 14 input images allowed." ∉
      (generate_image (fun _ => RemoteResult.success [[0]]) "p" "k"
        Resolution.r1K "m" none).1 := by
  constructor
  · exact ((request_builder_length_bound (fun _ => RemoteResult.success [[0]])
      "p" "k" Resolution.r1K "m").1 (List.replicate 15 (Image.decoded []))
      (by simp)).1
  · exact (request_builder_length_bound (fun _ => RemoteResult.success [[0]])
      "p" "k" Resolution.r1K "m").2 none (by simp)

lemma get_api_key_some (k : String) (env : Option String)
    (hk : k.isEmpty = false) :
    get_api_key (some k) env = ([], Except.ok k) := by
  simp [get_api_key, strTruthy, hk]

lemma load_input_images_ok (pathExists : String → Bool)
    (paths : List String) (h : ∀ p ∈ paths, pathExists p = true) :
    load_input_images pathExists paths =
      ([], Except.ok (paths.map Image.loaded)) := by
  induction paths with
  | nil => rfl
  | cons p rest ih =>
      have hp : pathExists p = true := h p (List.mem_cons_self p rest)
      have hrest := ih (fun q hq => h q (List.mem_cons_of_mem p hq))
      simp [load_input_images, hp, hrest]

lemma generate_image_const_error (e : String)
    (remote : Request → RemoteResult)
    (hrem : ∀ req, remote req = RemoteResult.error e)
    (prompt : String) (api_key : String) (resolution : Resolution)
    (model : String) (input_images : Option (List Image))
    (hlen : (input_images.getD []).length ≤ 14) :
    ∃ req : Request,
      generate_image remote prompt api_key resolution model input_images =
        ([Event.remoteCall req], GenResult.exc e) := by
  cases input_images with
  | none =>
      refine ⟨⟨model, prompt, none, ⟨1⟩⟩, ?_⟩
      cases resolution <;> simp [generate_image, listTruthy, handleResponse, hrem]
  | some imgs =>
      by_cases hne : imgs.isEmpty
      · refine ⟨⟨model, prompt, none, ⟨1⟩⟩, ?_⟩
        cases resolution <;>
          simp [generate_image, listTruthy, hne, handleResponse, hrem]
      · have hle : ¬ imgs.length > 14 := by
          simp only [Option.getD_some] at hlen
          omega
        refine ⟨⟨model, prompt, some imgs, ⟨1⟩⟩, ?_⟩
        cases resolution <;>
          simp [generate_image, listTruthy, hne, hle, handleResponse, hrem]

lemma resolveInputImages_none (pathExists : String → Bool) :
    resolveInputImages pathExists none = ([], Except.ok none) := rfl

lemma resolveInputImages_empty (pathExists : String → Bool)
    (paths : List String) (hne : paths.isEmpty = true) :
    resolveInputImages pathExists (some paths) = ([], Except.ok none) := by
  simp [resolveInputImages, listTruthy, hne]

lemma resolveInputImages_ok_some (pathExists : String → Bool)
    (paths : List String) (hne : paths.isEmpty = false)
    (h : ∀ p ∈ paths, pathExists p = true) :
    resolveInputImages pathExists (some paths) =
      ([], Except.ok (some (paths.map Image.loaded))) := by
  simp [resolveInputImages, listTruthy, hne,
    load_input_images_ok pathExists paths h]

lemma main_const_error (remote : Request → RemoteResult)
    (enc : Image → ByteStream) (pathExists : String → Bool)
    (env : Option String) (args : Args) (e : String) (k : String)
    (hkey : args.api_key = some k) (hk : k.isEmpty = false)
    (hpaths : ∀ p ∈ args.input_images.getD [], pathExists p = true)
    (hlen : (args.input_images.getD []).length ≤ 14)
    (hrem : ∀ req, remote req = RemoteResult.error e) :
    (Script.main remote enc pathExists env args).exitCode = 0 ∧
    Event.fileWrite args.filename (create_error_image ("Error: " ++ e)) ∈
      (Script.main remote enc pathExists env args).events ∧
    Event.stderrLine ("Error: " ++ e) ∈
      (Script.main remote enc pathExists env args).events := by
  have hapi := get_api_key_some k env hk
  by_cases ht : listTruthy args.input_images
  · cases hargs : args.input_images with
    | none => rw [hargs] at ht; exact absurd ht (by simp [listTruthy])
    | some paths =>
        have hne : paths.isEmpty = false := by
          rw [hargs] at ht
          simpa [listTruthy, Bool.not_eq_true'] using ht
        have hlen2 : ((some (paths.map Image.loaded)).getD []).length ≤ 14 := by
          rw [hargs] at hlen
          simpa using hlen
        obtain ⟨req, hgen⟩ := generate_image_const_error e remote hrem
          args.prompt k args.resolution args.model
          (some (paths.map Image.loaded)) hlen2
        have hres := resolveInputImages_ok_some pathExists paths hne
          (by intro p hp; exact hpaths p (by rw [hargs]; simpa using hp))
        unfold Script.main
        rw [hkey, hapi, hargs, hres]
        simp [listTruthy, hgen]
  · obtain ⟨req, hgen⟩ := generate_image_const_error e remote hrem
      args.prompt k args.resolution args.model none (by simp)
    cases hargs : args.input_images with
    | none =>
        unfold Script.main
        rw [hkey, hapi, hargs, resolveInputImages_none]
        simp [listTruthy, hgen]
    | some paths =>
        rw [hargs] at ht
        have hne : paths.isEmpty = true := by
          simpa [listTruthy] using ht
        unfold Script.main
        rw [hkey, hapi, hargs, resolveInputImages_empty pathExists paths hne]
        simp [listTruthy, hgen]

lemma get_api_key_cases (a env : Option String) :
    (∃ k, get_api_key a env = ([], Except.ok k)) ∨
    get_api_key a env =
      ([Event.stderrLine "Error: No API key provided.",
        Event.stderrLine "Set GEMINI_API_KEY environment variable or use --api-key"],
       Except.error 1) := by
  unfold get_api_key
  by_cases h : strTruthy (if strTruthy a then a else env) = true
  · left
    exact ⟨(if strTruthy a then a else env).getD "", by simp [h]⟩
  · right
    simp [h]

lemma load_input_images_cases (pathExists : String → Bool)
    (paths : List String) :
    (∃ imgs, load_input_images pathExists paths = ([], Except.ok imgs)) ∨
    (∃ s, load_input_images pathExists paths =
      ([Event.stderrLine s], Except.error 1)) := by
  induction paths with
  | nil => exact Or.inl ⟨[], rfl⟩
  | cons p rest ih =>
      by_cases hp : pathExists p = true
      · rcases ih with ⟨imgs, h⟩ | ⟨s, h⟩
        · exact Or.inl ⟨Image.loaded p :: imgs,
            by simp [load_input_images, hp, h]⟩
        · exact Or.inr ⟨s, by simp [load_input_images, hp, h]⟩
      · exact Or.inr ⟨"Error: Input image not found: " ++ p,
          by simp [load_input_images, hp]⟩

lemma resolveInputImages_cases (pathExists : String → Bool)
    (o : Option (List String)) :
    (∃ imgs, resolveInputImages pathExists o = ([], Except.ok imgs)) ∨
    (∃ s, resolveInputImages pathExists o =
      ([Event.stderrLine s], Except.error 1)) := by
  unfold resolveInputImages
  by_cases ht : listTruthy o = true
  · rcases load_input_images_cases pathExists (o.getD []) with ⟨imgs, h⟩ | ⟨s, h⟩
    · exact Or.inl ⟨some imgs, by simp [ht, h]⟩
    · exact Or.inr ⟨s, by simp [ht, h]⟩
  · exact Or.inl ⟨none, by simp [ht]⟩

lemma handleResponse_cases (req : Request) (res : RemoteResult) :
    (∃ msg, handleResponse req res = ([Event.remoteCall req], GenResult.exc msg)) ∨
    (handleResponse req res =
      ([Event.remoteCall req, Event.stderrLine "Error: No image generated."],
       GenResult.exit 1) ∧ res = RemoteResult.success []) ∨
    (∃ img, handleResponse req res = ([Event.remoteCall req], GenResult.ok img)) := by
  cases res with
  | error m => exact Or.inl ⟨m, rfl⟩
  | success l =>
      by_cases hl : l.isEmpty = true
      · refine Or.inr (Or.inl ⟨by simp [handleResponse, hl], ?_⟩)
        rw [List.isEmpty_iff.mp hl]
      · exact Or.inr (Or.inr ⟨Image.decoded (l.headD []),
          by simp [handleResponse, hl]⟩)

lemma generate_image_cases (remote : Request → RemoteResult)
    (prompt : String) (api_key : String) (resolution : Resolution)
    (model : String) (input_images : Option (List Image)) :
    generate_image remote prompt api_key resolution model input_images =
      ([Event.stderrLine "Error: Maximum 14 input images allowed."],
       GenResult.exit 1) ∨
    (∃ req msg,
      generate_image remote prompt api_key resolution model input_images =
        ([Event.remoteCall req], GenResult.exc msg)) ∨
    (∃ req,
      generate_image remote prompt api_key resolution model input_images =
        ([Event.remoteCall req,
          Event.stderrLine "Error: No image generated."], GenResult.exit 1) ∧
      remote req = RemoteResult.success []) ∨
    (∃ req img,
      generate_image remote prompt api_key resolution model input_images =
        ([Event.remoteCall req], GenResult.ok img)) := by
  by_cases ht : listTruthy input_images = true
  · by_cases hlen : (input_images.getD []).length > 14
    · refine Or.inl ?_
      cases resolution <;> simp [generate_image, ht, hlen]
    · have heq : generate_image remote prompt api_key resolution model
          input_images =
          handleResponse ⟨model, prompt, some (input_images.getD []), ⟨1⟩⟩
            (remote ⟨model, prompt, some (input_images.getD []), ⟨1⟩⟩) := by
        cases resolution <;> simp [generate_image, ht, hlen]
      rw [heq]
      rcases handleResponse_cases ⟨model, prompt, some (input_images.getD []), ⟨1⟩⟩
          (remote ⟨model, prompt, some (input_images.getD []), ⟨1⟩⟩) with
        ⟨msg, h⟩ | ⟨h, hr⟩ | ⟨img, h⟩
      · exact Or.inr (Or.inl ⟨_, msg, h⟩)
      · exact Or.inr (Or.inr (Or.inl ⟨_, h, hr⟩))
      · exact Or.inr (Or.inr (Or.inr ⟨_, img, h⟩))
  · have heq : generate_image remote prompt api_key resolution model
        input_images =
        handleResponse ⟨model, prompt, none, ⟨1⟩⟩
          (remote ⟨model, prompt, none, ⟨1⟩⟩) := by
      cases resolution <;> simp [generate_image, ht]
    rw [heq]
    rcases handleResponse_cases ⟨model, prompt, none, ⟨1⟩⟩
        (remote ⟨model, prompt, none, ⟨1⟩⟩) with
      ⟨msg, h⟩ | ⟨h, hr⟩ | ⟨img, h⟩
    · exact Or.inr (Or.inl ⟨_, msg, h⟩)
    · exact Or.inr (Or.inr (Or.inl ⟨_, h, hr⟩))
    · exact Or.inr (Or.inr (Or.inr ⟨_, img, h⟩))

/-- C6 (corrected): a run of `main` exits with code 0 exactly when a file
is written at the requested path; a nonzero exit writes no file, and it
happens either with no remote call issued at all (argument validation:
missing API key, missing input image file, more than 14 input images) or
when the issued remote call returned an empty result set. -/
theorem main_exit_file_dichotomy (remote : Request → RemoteResult)
    (enc : Image → ByteStream) (pathExists : String → Bool)
    (env : Option String) (args : Args) :
    ((Script.main remote enc pathExists env args).exitCode = 0 →
      ∃ img, Event.fileWrite args.filename img ∈
        (Script.main remote enc pathExists env args).events) ∧
    ((Script.main remote enc pathExists env args).exitCode ≠ 0 →
      (∀ ev ∈ (Script.main remote enc pathExists env args).events,
        ev.isFileWrite = false) ∧
      ((∀ ev ∈ (Script.main remote enc pathExists env args).events,
          ev.isRemoteCall = false) ∨
       ∃ req, Event.remoteCall req ∈
          (Script.main remote enc pathExists env args).events ∧
        remote req = RemoteResult.success [])) := by
  rcases get_api_key_cases args.api_key env with ⟨k, hapi⟩ | hapi
  · rcases resolveInputImages_cases pathExists args.input_images with
      ⟨imgs, hres⟩ | ⟨s, hres⟩
    · rcases generate_image_cases remote args.prompt k args.resolution
          args.model imgs with h1 | ⟨req, msg, h1⟩ | ⟨req, h1, hreq⟩ |
          ⟨req, img, h1⟩
      · by_cases hT : listTruthy imgs = true <;>
        · unfold Script.main
          simp only [hapi, hres, h1]
          refine ⟨fun h0 => by simp at h0, fun _ => ⟨?_, Or.inl ?_⟩⟩ <;>
            simp [hT, Event.isFileWrite, Event.isRemoteCall]
      · by_cases hT : listTruthy imgs = true <;>
        · unfold Script.main
          simp only [hapi, hres, h1]
          refine ⟨fun _ => ⟨create_error_image ("Error: " ++ msg), ?_⟩,
            fun h0 => by simp at h0⟩
          simp [hT]
      · by_cases hT : listTruthy imgs = true <;>
        · unfold Script.main
          simp only [hapi, hres, h1]
          refine ⟨fun h0 => by simp at h0,
            fun _ => ⟨?_, Or.inr ⟨req, by simp [hT], hreq⟩⟩⟩
          simp [hT, Event.isFileWrite, Event.isRemoteCall]
      · by_cases hT : listTruthy imgs = true <;>
        · unfold Script.main
          simp only [hapi, hres, h1]
          refine ⟨fun _ =>
            ⟨if args.compress then compress_image enc img args.max_size
              else img, ?_⟩, fun h0 => by simp at h0⟩
          simp [hT]
    · unfold Script.main
      simp only [hapi, hres]
      refine ⟨fun h0 => by simp at h0, fun _ => ⟨?_, Or.inl ?_⟩⟩ <;>
        simp [Event.isFileWrite, Event.isRemoteCall]
  · unfold Script.main
    simp only [hapi]
    refine ⟨fun h0 => by simp at h0, fun _ => ⟨?_, Or.inl ?_⟩⟩ <;>
      simp [Event.isFileWrite, Event.isRemoteCall]

/-- Sample CLI arguments: a plain run with an API key on the command line,
no input images and no compression. -/
def argsX : Args :=
  ⟨"a red circle", "out.png", Resolution.r1K, "imagen-4.0-generate-001",
   some "key", none, false, 10⟩

/-- Witness for C6 (amended), zero-exit direction: a successful remote call
leads to a file written at the requested path. -/
theorem main_exit_file_dichotomy_witness :
    ∃ img, Event.fileWrite "out.png" img ∈
      (Script.main (fun _ => RemoteResult.success [[0]]) (fun _ => [])
        (fun _ => false) none argsX).events :=
  (main_exit_file_dichotomy (fun _ => RemoteResult.success [[0]]) (fun _ => [])
    (fun _ => false) none argsX).1 (by decide)

/-- C6 counterexample: a run whose remote call returns an empty result set
exits nonzero and writes no file, although a remote call was issued - so
argument validation failing before the remote call is not the only way the
process exits nonzero without an output file. -/
theorem main_empty_result_exit_no_file :
    (Script.main (fun _ => RemoteResult.success []) (fun _ => [])
        (fun _ => false) none argsX).exitCode ≠ 0 ∧
    (Script.main (fun _ => RemoteResult.success []) (fun _ => [])
        (fun _ => false) none argsX).events.any Event.isRemoteCall = true ∧
    (Script.main (fun _ => RemoteResult.success []) (fun _ => [])
        (fun _ => false) none argsX).events.all
      (fun ev => !ev.isFileWrite) = true := by
  refine ⟨?_, ?_, ?_⟩ <;> decide

/-- C1 counterexample: when the remote call returns an empty result set
(`not response.generated_images`), the script calls `sys.exit(1)`; the
resulting `SystemExit` is not caught by `except Exception`, so the process
ends with exit code 1, only the diagnostic is emitted, and NO placeholder
artifact (indeed no file at all) is written. -/
theorem main_empty_result_no_placeholder :
    (Script.main (fun _ => RemoteResult.success []) (fun _ => [])
        (fun _ => false) none argsX).exitCode = 1 ∧
    Event.stderrLine "Error: No image generated." ∈
      (Script.main (fun _ => RemoteResult.success []) (fun _ => [])
        (fun _ => false) none argsX).events ∧
    (Script.main (fun _ => RemoteResult.success []) (fun _ => [])
        (fun _ => false) none argsX).events.all
      (fun ev => !ev.isFileWrite) = true := by
  refine ⟨?_, ?_, ?_⟩ <;> decide

/-- C1 (corrected): every failure raised as an ordinary Python exception
by the remote generation call is caught; the program synthesizes the
placeholder artifact, writes it as a PNG to the originally requested
output path, and emits the diagnostic message instead of crashing without
an output file.  The empty-result-set case is excluded: there the script
exits via `sys.exit(1)` (a `SystemExit`, not an `Exception`) and writes no
file (see the counterexample). -/
theorem main_exception_to_placeholder (remote : Request → RemoteResult)
    (enc : Image → ByteStream) (pathExists : String → Bool)
    (env : Option String) (args : Args) (e k : String)
    (hkey : args.api_key = some k) (hk : k.isEmpty = false)
    (hpaths : ∀ p ∈ args.input_images.getD [], pathExists p = true)
    (hlen : (args.input_images.getD []).length ≤ 14)
    (hrem : ∀ req, remote req = RemoteResult.error e) :
    Event.fileWrite args.filename (create_error_image ("Error: " ++ e)) ∈
      (Script.main remote enc pathExists env args).events ∧
    Event.stderrLine ("Error: " ++ e) ∈
      (Script.main remote enc pathExists env args).events ∧
    (Script.main remote enc pathExists env args).exitCode = 0 :=
  have h := main_const_error remote enc pathExists env args e k hkey hk
    hpaths hlen hrem
  ⟨h.2.1, h.2.2, h.1⟩

/-- Witness for C1 (amended) on a concrete failing remote call. -/
theorem main_exception_to_placeholder_witness :
    Event.fileWrite "out.png" (create_error_image "Error: boom") ∈
      (Script.main (fun _ => RemoteResult.error "boom") (fun _ => [])
        (fun _ => false) none argsX).events :=
  (main_exception_to_placeholder (fun _ => RemoteResult.error "boom")
    (fun _ => []) (fun _ => false) none argsX "boom" "key" rfl rfl
    (by intro p hp; simp [argsX] at hp) (by simp [argsX])
    (fun _ => rfl)).1

/-- C7: for every error message, the synthesized placeholder is the fixed
512 by 512 canvas with the dark background (30, 30, 30) rendering the
literal text "GENERATION FAILED" and the first 200 characters of the
error message, and on the placeholder path it is written to the
originally requested output path. -/
theorem error_placeholder_contents (remote : Request → RemoteResult)
    (enc : Image → ByteStream) (pathExists : String → Bool)
    (env : Option String) (args : Args) (e k : String)
    (hkey : args.api_key = some k) (hk : k.isEmpty = false)
    (hpaths : ∀ p ∈ args.input_images.getD [], pathExists p = true)
    (hlen : (args.input_images.getD []).length ≤ 14)
    (hrem : ∀ req, remote req = RemoteResult.error e) :
    create_error_image ("Error: " ++ e) =
      Image.canvas 512 512 (30, 30, 30)
        [((20, 200), "GENERATION FAILED", (255, 50, 50)),
         ((20, 230), ("Error: " ++ e).take 200, (200, 200, 200))] ∧
    (("Error: " ++ e).take 200).length ≤ 200 ∧
    Event.fileWrite args.filename (create_error_image ("Error: " ++ e)) ∈
      (Script.main remote enc pathExists env args).events := by
  refine ⟨rfl, ?_, (main_const_error remote enc pathExists env args e k hkey
    hk hpaths hlen hrem).2.1⟩
  rw [String.take_eq, String.mk_length, List.length_take]
  omega

/-- Witness for C7 on a concrete error message. -/
theorem error_placeholder_contents_witness :
    (("Error: " ++ "boom").take 200).length ≤ 200 ∧
    Event.fileWrite "out.png" (create_error_image ("Error: " ++ "boom")) ∈
      (Script.main (fun _ => RemoteResult.error "boom") (fun _ => [])
        (fun _ => false) none argsX).events :=
  ⟨(error_placeholder_contents (fun _ => RemoteResult.error "boom")
      (fun _ => []) (fun _ => false) none argsX "boom" "key" rfl rfl
      (by intro p hp; simp [argsX] at hp) (by simp [argsX])
      (fun _ => rfl)).2.1,
   (error_placeholder_contents (fun _ => RemoteResult.error "boom")
      (fun _ => []) (fun _ => false) none argsX "boom" "key" rfl rfl
      (by intro p hp; simp [argsX] at hp) (by simp [argsX])
      (fun _ => rfl)).2.2⟩
